import Mathlib

/-!
Verification of the Supplier KPI Scorecard scoring and aggregation engine.

The definitions below are a shallow embedding of the TypeScript sources:
* `src/server/storage.ts` (class `MemStorage`: scoring functions, evaluation
  creation, KPI aggregation, configuration management),
* `src/shared/schema.ts` (record shapes and the generated insert schemas),
* the client configuration-preview functions (`getScorePreview` in the
  price/quantity/delivery/quality configuration forms) and the PPM
  classification helper (`getPpmRange` in `ppm-evaluations-list.tsx`).

JavaScript numbers are modelled as exact rationals (`ℚ`); all arithmetic in
the repository stays on integer scores and small sums, so the rational
model coincides with the float semantics on the inputs of interest, except
for division by zero, which is flagged where it matters (claim C3).
Identifiers produced by `randomUUID()` are modelled as naturals drawn from a
counter in the storage state; `Date.now()`-style timestamps enter as explicit
`now : ℕ` parameters.
-/

namespace Scorecard

/-- JavaScript `Math.round`: rounds to the nearest integer, halves toward
positive infinity, i.e. `⌊x + 1/2⌋`. -/
def jsRound (q : ℚ) : ℤ := ⌊q + 1/2⌋

/-- JavaScript `Math.floor` on a rational. -/
def jsFloor (q : ℚ) : ℤ := ⌊q⌋

/-- Inspection result of a quality evaluation: the TS code stores the strings
`"OK"` / `"NOT_OK"` and branches on equality with `"OK"`. -/
inductive InspectionResult where
  | OK : InspectionResult
  | NOT_OK : InspectionResult
deriving Repr, DecidableEq

/-! ## Fixed-table scoring functions (`storage.ts`, private methods) -/

/-- `MemStorage.calculatePriceScore` (storage.ts:451): SAP price scoring
intervals, a cascade of `>=` tests on the variance percentage. -/
def calculatePriceScore (variancePercentage : ℚ) : ℚ :=
  if variancePercentage ≥ 20 then 5
  else if variancePercentage ≥ 10 then 10
  else if variancePercentage ≥ 5 then 20
  else if variancePercentage ≥ 0 then 40
  else if variancePercentage ≥ -5 then 60
  else if variancePercentage ≥ -10 then 80
  else if variancePercentage ≥ -20 then 90
  else 95

/-- `MemStorage.calculateQuantityScore` (storage.ts:463). -/
def calculateQuantityScore (variancePercentage : ℚ) : ℚ :=
  if variancePercentage ≥ 20 then 100
  else if variancePercentage ≥ 10 then 95
  else if variancePercentage ≥ 5 then 90
  else if variancePercentage ≥ 0 then 80
  else if variancePercentage ≥ -5 then 60
  else if variancePercentage ≥ -10 then 40
  else if variancePercentage ≥ -20 then 20
  else 10

/-- `MemStorage.calculateDeliveryScore` (storage.ts:475); `overdueDays` is an
integer (it is produced by `Math.floor`). -/
def calculateDeliveryScore (overdueDays : ℤ) : ℚ :=
  if overdueDays ≤ -60 then 5
  else if overdueDays ≤ -30 then 20
  else if overdueDays ≤ -10 then 40
  else if overdueDays ≤ -1 then 65
  else if overdueDays = 0 then 100
  else if overdueDays ≤ 10 then 80
  else if overdueDays ≤ 20 then 60
  else if overdueDays ≤ 30 then 40
  else if overdueDays ≤ 40 then 20
  else 5

/-- `MemStorage.calculateQualityNotificationScore` (storage.ts:489); the
notification count is stored as an integer column. -/
def calculateQualityNotificationScore (notifications : ℤ) : ℚ :=
  if notifications = 0 then 100
  else if notifications ≤ 5 then 80
  else if notifications ≤ 10 then 60
  else if notifications ≤ 20 then 40
  else if notifications ≤ 50 then 20
  else 5

/-- The 8-band price table exactly as the specification words it, with
explicit half-open intervals (`[10,20) → 10`, ..., `< -20 → 95`).  This is a
spec-side definition, kept separate from `calculatePriceScore` so the two can
be compared. -/
def priceBandSpec (v : ℚ) : ℚ :=
  if 20 ≤ v then 5
  else if 10 ≤ v ∧ v < 20 then 10
  else if 5 ≤ v ∧ v < 10 then 20
  else if 0 ≤ v ∧ v < 5 then 40
  else if -5 ≤ v ∧ v < 0 then 60
  else if -10 ≤ v ∧ v < -5 then 80
  else if -20 ≤ v ∧ v < -10 then 90
  else 95

/-! ## Data model (`schema.ts` tables, `$inferSelect` shapes)

Columns typed `real` become `ℚ`, `integer` columns become `ℤ`, timestamps
become `ℕ`, ids become `ℕ` (drawn from the storage's UUID counter). -/

structure Supplier where
  id : ℕ
  name : String
  code : String
  contactEmail : Option String
  contactPhone : Option String
  address : Option String
  createdAt : ℕ
deriving Repr, DecidableEq

structure PriceEvaluation where
  id : ℕ
  supplierId : ℕ
  poNumber : String
  itemNumber : String
  poPrice : ℚ
  invoicePrice : ℚ
  quantity : ℤ
  varianceAmount : ℚ
  variancePercentage : ℚ
  score : ℚ
  createdAt : ℕ
deriving Repr, DecidableEq

structure QuantityEvaluation where
  id : ℕ
  supplierId : ℕ
  poNumber : String
  itemNumber : String
  orderedQuantity : ℤ
  receivedQuantity : ℤ
  varianceQuantity : ℤ
  variancePercentage : ℚ
  score : ℚ
  createdAt : ℕ
deriving Repr, DecidableEq

/-- Dates are modelled as JavaScript epoch-millisecond values (`Date.getTime`). -/
structure DeliveryEvaluation where
  id : ℕ
  supplierId : ℕ
  poNumber : String
  itemNumber : String
  scheduleLineNumber : String
  scheduledDate : ℤ
  actualDate : ℤ
  overdueDays : ℤ
  score : ℚ
  createdAt : ℕ
deriving Repr, DecidableEq

structure QualityEvaluation where
  id : ℕ
  supplierId : ℕ
  poNumber : String
  itemNumber : String
  qualityNotifications : ℤ
  inspectionResult : InspectionResult
  notificationScore : ℚ
  inspectionScore : ℚ
  overallScore : ℚ
  createdAt : ℕ
deriving Repr, DecidableEq

structure PpmEvaluation where
  id : ℕ
  supplierId : ℕ
  materialDocument : String
  rejectedQuantity : ℤ
  totalReceivedQuantity : ℤ
  ppmValue : ℤ
  createdAt : ℕ
deriving Repr, DecidableEq

structure SupplierKpi where
  id : ℕ
  supplierId : ℕ
  priceScore : ℚ
  quantityScore : ℚ
  deliveryScore : ℚ
  qualityScore : ℚ
  overallKpi : ℚ
  evaluationCount : ℕ
  lastUpdated : ℕ
deriving Repr, DecidableEq

structure PriceConfiguration where
  id : ℕ
  name : String
  description : Option String
  excellentThreshold : ℚ
  goodThreshold : ℚ
  acceptableThreshold : ℚ
  penaltyRate : ℚ
  minimumScore : ℤ
  isActive : Bool
  createdAt : ℕ
  updatedAt : ℕ
deriving Repr, DecidableEq

/-! ## Insert payloads (`Insert*` types from `schema.ts`)

`InsertPriceEvaluation` has all fields required; `InsertPriceConfiguration`
has optional fields (defaults are applied inside `createPriceConfiguration`
with `??` / `||`), so those are `Option`s here.  The same `Option` shape also
models the `Partial<InsertPriceConfiguration>` patch accepted by
`updatePriceConfiguration`: `none` means "field absent from the patch". -/

structure InsertPriceEvaluation where
  supplierId : ℕ
  poNumber : String
  itemNumber : String
  poPrice : ℚ
  invoicePrice : ℚ
  quantity : ℤ
deriving Repr, DecidableEq

structure InsertQuantityEvaluation where
  supplierId : ℕ
  poNumber : String
  itemNumber : String
  orderedQuantity : ℤ
  receivedQuantity : ℤ
deriving Repr, DecidableEq

structure InsertDeliveryEvaluation where
  supplierId : ℕ
  poNumber : String
  itemNumber : String
  scheduleLineNumber : String
  scheduledDate : ℤ
  actualDate : ℤ
deriving Repr, DecidableEq

structure InsertQualityEvaluation where
  supplierId : ℕ
  poNumber : String
  itemNumber : String
  qualityNotifications : ℤ
  inspectionResult : InspectionResult
deriving Repr, DecidableEq

structure InsertPpmEvaluation where
  supplierId : ℕ
  materialDocument : String
  rejectedQuantity : ℤ
  totalReceivedQuantity : ℤ
deriving Repr, DecidableEq

structure InsertPriceConfiguration where
  name : Option String
  description : Option String
  excellentThreshold : Option ℚ
  goodThreshold : Option ℚ
  acceptableThreshold : Option ℚ
  penaltyRate : Option ℚ
  minimumScore : Option ℤ
  isActive : Option Bool
deriving Repr, DecidableEq

/-- The server-side request validation used by `POST /api/price-evaluations`
(routes file): `insertPriceEvaluationSchema.safeParse(req.body)`.  The zod
schema is `createInsertSchema(priceEvaluations).omit({id, createdAt,
varianceAmount, variancePercentage, score})`, which checks only field
presence and primitive types; it carries no numeric refinement (the
`.min(0.01, "PO price must be greater than 0")` refinements exist only in
the client form schema `price-evaluation-form.tsx` and are not applied on
the server).  Over the already-typed insert record the server check
therefore accepts every value, including `poPrice = 0`. -/
def insertPriceEvaluationSchemaCheck (_e : InsertPriceEvaluation) : Bool := true

/-! ## `MemStorage` state (`storage.ts`)

The JavaScript `Map`s preserve insertion order and are keyed by fresh
UUIDs (`supplierKpis` by supplier id); they are modelled as lists in
insertion order.  `Map.set` on an existing key overwrites in place, which
for the KPI map is `setKpiEntry` below.  `nextId` models the `randomUUID()`
supply. -/

structure MemStorage where
  nextId : ℕ
  suppliers : List Supplier
  priceEvaluations : List PriceEvaluation
  quantityEvaluations : List QuantityEvaluation
  deliveryEvaluations : List DeliveryEvaluation
  qualityEvaluations : List QualityEvaluation
  ppmEvaluations : List PpmEvaluation
  supplierKpis : List SupplierKpi
  priceConfigurations : List PriceConfiguration
deriving Repr, DecidableEq

/-- `this.supplierKpis.set(supplierId, updated)`: overwrite the entry keyed
`supplierId` in place if present, otherwise append. -/
def setKpiEntry (l : List SupplierKpi) (sid : ℕ) (k : SupplierKpi) :
    List SupplierKpi :=
  if l.any (fun e => e.supplierId = sid) then
    l.map (fun e => if e.supplierId = sid then k else e)
  else l ++ [k]

/-- `this.supplierKpis.get(supplierId)` / `getSupplierKpi`. -/
def getSupplierKpi (s : MemStorage) (sid : ℕ) : Option SupplierKpi :=
  s.supplierKpis.find? (fun k => k.supplierId = sid)

/-- `getPriceEvaluations(supplierId)` (storage.ts:287): the values in
insertion order, filtered by supplier. -/
def getPriceEvaluations (s : MemStorage) (sid : ℕ) : List PriceEvaluation :=
  s.priceEvaluations.filter (fun e => e.supplierId = sid)

def getQuantityEvaluations (s : MemStorage) (sid : ℕ) : List QuantityEvaluation :=
  s.quantityEvaluations.filter (fun e => e.supplierId = sid)

def getDeliveryEvaluations (s : MemStorage) (sid : ℕ) : List DeliveryEvaluation :=
  s.deliveryEvaluations.filter (fun e => e.supplierId = sid)

def getQualityEvaluations (s : MemStorage) (sid : ℕ) : List QualityEvaluation :=
  s.qualityEvaluations.filter (fun e => e.supplierId = sid)

/-- The `kpiData` record that `updateSupplierKpis` passes to
`updateSupplierKpi` (storage.ts:524): the five scores, the evaluation count
and the refreshed timestamp.  (`updateSupplierKpi` accepts an arbitrary
`Partial<SupplierKpi>` in the source; this is the one shape the repository
ever passes.) -/
structure KpiData where
  priceScore : ℚ
  quantityScore : ℚ
  deliveryScore : ℚ
  qualityScore : ℚ
  overallKpi : ℚ
  evaluationCount : ℕ
  lastUpdated : ℕ
deriving Repr, DecidableEq

/-- `MemStorage.updateSupplierKpi` (storage.ts:430): build
`{defaults, ...existing, ...kpiData}` — the id (and supplierId) survive from
the existing entry when there is one, `randomUUID()` is called only when
there is none (`existing?.id || randomUUID()` short-circuits), and all
fields carried by `kpiData` overwrite. -/
def updateSupplierKpi (sid : ℕ) (kpiData : KpiData) (s : MemStorage) :
    SupplierKpi × MemStorage :=
  match s.supplierKpis.find? (fun k => k.supplierId = sid) with
  | some existing =>
      let updated : SupplierKpi :=
        { id := existing.id
          supplierId := existing.supplierId
          priceScore := kpiData.priceScore
          quantityScore := kpiData.quantityScore
          deliveryScore := kpiData.deliveryScore
          qualityScore := kpiData.qualityScore
          overallKpi := kpiData.overallKpi
          evaluationCount := kpiData.evaluationCount
          lastUpdated := kpiData.lastUpdated }
      (updated, { s with supplierKpis := setKpiEntry s.supplierKpis sid updated })
  | none =>
      let updated : SupplierKpi :=
        { id := s.nextId
          supplierId := sid
          priceScore := kpiData.priceScore
          quantityScore := kpiData.quantityScore
          deliveryScore := kpiData.deliveryScore
          qualityScore := kpiData.qualityScore
          overallKpi := kpiData.overallKpi
          evaluationCount := kpiData.evaluationCount
          lastUpdated := kpiData.lastUpdated }
      (updated,
        { s with
            nextId := s.nextId + 1
            supplierKpis := setKpiEntry s.supplierKpis sid updated })

/-- The body of `MemStorage.updateSupplierKpis` (storage.ts:499-522) up to
the final store: fetch the supplier's evaluations in the four KPI
categories, take each category's `reduce`-sum divided by its length (0 when
the category is empty), the overall KPI as the mean of the four category
values, and the count as the total over the four lists. -/
def recomputeKpiData (sid : ℕ) (now : ℕ) (s : MemStorage) : KpiData :=
  let priceEvals := getPriceEvaluations s sid
  let quantityEvals := getQuantityEvaluations s sid
  let deliveryEvals := getDeliveryEvaluations s sid
  let qualityEvals := getQualityEvaluations s sid
  let priceScore : ℚ :=
    if 0 < priceEvals.length then
      (priceEvals.map (fun e => e.score)).sum / (priceEvals.length : ℚ)
    else 0
  let quantityScore : ℚ :=
    if 0 < quantityEvals.length then
      (quantityEvals.map (fun e => e.score)).sum / (quantityEvals.length : ℚ)
    else 0
  let deliveryScore : ℚ :=
    if 0 < deliveryEvals.length then
      (deliveryEvals.map (fun e => e.score)).sum / (deliveryEvals.length : ℚ)
    else 0
  let qualityScore : ℚ :=
    if 0 < qualityEvals.length then
      (qualityEvals.map (fun e => e.overallScore)).sum / (qualityEvals.length : ℚ)
    else 0
  let overallKpi := (priceScore + quantityScore + deliveryScore + qualityScore) / 4
  let evaluationCount :=
    priceEvals.length + quantityEvals.length + deliveryEvals.length + qualityEvals.length
  { priceScore := priceScore
    quantityScore := quantityScore
    deliveryScore := deliveryScore
    qualityScore := qualityScore
    overallKpi := overallKpi
    evaluationCount := evaluationCount
    lastUpdated := now }

/-- `MemStorage.updateSupplierKpis` (storage.ts:499): recompute the
supplier's KPI snapshot from the full evaluation stores and persist it
through `updateSupplierKpi`. -/
def updateSupplierKpis (sid : ℕ) (now : ℕ) (s : MemStorage) : MemStorage :=
  (updateSupplierKpi sid (recomputeKpiData sid now s) s).2

/-- `MemStorage.createPriceEvaluation` (storage.ts:292): derive variance and
score, store the record under a fresh id, then synchronously recompute the
supplier's KPI snapshot. -/
def createPriceEvaluation (e : InsertPriceEvaluation) (now : ℕ) (s : MemStorage) :
    PriceEvaluation × MemStorage :=
  let varianceAmount := e.invoicePrice - e.poPrice
  let variancePercentage := varianceAmount / e.poPrice * 100
  let score := calculatePriceScore variancePercentage
  let ev : PriceEvaluation :=
    { id := s.nextId
      supplierId := e.supplierId
      poNumber := e.poNumber
      itemNumber := e.itemNumber
      poPrice := e.poPrice
      invoicePrice := e.invoicePrice
      quantity := e.quantity
      varianceAmount := varianceAmount
      variancePercentage := variancePercentage
      score := score
      createdAt := now }
  let s1 := { s with nextId := s.nextId + 1
                     priceEvaluations := s.priceEvaluations ++ [ev] }
  (ev, updateSupplierKpis e.supplierId now s1)

/-- `MemStorage.createQuantityEvaluation` (storage.ts:321). -/
def createQuantityEvaluation (e : InsertQuantityEvaluation) (now : ℕ) (s : MemStorage) :
    QuantityEvaluation × MemStorage :=
  let varianceQuantity := e.receivedQuantity - e.orderedQuantity
  let variancePercentage := (varianceQuantity : ℚ) / (e.orderedQuantity : ℚ) * 100
  let score := calculateQuantityScore variancePercentage
  let ev : QuantityEvaluation :=
    { id := s.nextId
      supplierId := e.supplierId
      poNumber := e.poNumber
      itemNumber := e.itemNumber
      orderedQuantity := e.orderedQuantity
      receivedQuantity := e.receivedQuantity
      varianceQuantity := varianceQuantity
      variancePercentage := variancePercentage
      score := score
      createdAt := now }
  let s1 := { s with nextId := s.nextId + 1
                     quantityEvaluations := s.quantityEvaluations ++ [ev] }
  (ev, updateSupplierKpis e.supplierId now s1)

/-- `MemStorage.createDeliveryEvaluation` (storage.ts:349): `overdueDays` is
`Math.floor((actual - scheduled) / 86_400_000)` on epoch milliseconds. -/
def createDeliveryEvaluation (e : InsertDeliveryEvaluation) (now : ℕ) (s : MemStorage) :
    DeliveryEvaluation × MemStorage :=
  let timeDiff := e.actualDate - e.scheduledDate
  let overdueDays := jsFloor ((timeDiff : ℚ) / (1000 * 60 * 60 * 24))
  let score := calculateDeliveryScore overdueDays
  let ev : DeliveryEvaluation :=
    { id := s.nextId
      supplierId := e.supplierId
      poNumber := e.poNumber
      itemNumber := e.itemNumber
      scheduleLineNumber := e.scheduleLineNumber
      scheduledDate := e.scheduledDate
      actualDate := e.actualDate
      overdueDays := overdueDays
      score := score
      createdAt := now }
  let s1 := { s with nextId := s.nextId + 1
                     deliveryEvaluations := s.deliveryEvaluations ++ [ev] }
  (ev, updateSupplierKpis e.supplierId now s1)

/-- `MemStorage.createQualityEvaluation` (storage.ts:376): the overall score
is the plain average of the notification sub-score and the inspection
sub-score (`OK → 100`, otherwise `1`). -/
def createQualityEvaluation (e : InsertQualityEvaluation) (now : ℕ) (s : MemStorage) :
    QualityEvaluation × MemStorage :=
  let notificationScore := calculateQualityNotificationScore e.qualityNotifications
  let inspectionScore : ℚ := if e.inspectionResult = InspectionResult.OK then 100 else 1
  let overallScore := (notificationScore + inspectionScore) / 2
  let ev : QualityEvaluation :=
    { id := s.nextId
      supplierId := e.supplierId
      poNumber := e.poNumber
      itemNumber := e.itemNumber
      qualityNotifications := e.qualityNotifications
      inspectionResult := e.inspectionResult
      notificationScore := notificationScore
      inspectionScore := inspectionScore
      overallScore := overallScore
      createdAt := now }
  let s1 := { s with nextId := s.nextId + 1
                     qualityEvaluations := s.qualityEvaluations ++ [ev] }
  (ev, updateSupplierKpis e.supplierId now s1)

/-- `MemStorage.createPpmEvaluation` (storage.ts:404): stores the PPM record
with `ppmValue = Math.round(rejected / totalReceived * 1_000_000)` and —
unlike the four scoring categories — does not call `updateSupplierKpis`. -/
def createPpmEvaluation (e : InsertPpmEvaluation) (now : ℕ) (s : MemStorage) :
    PpmEvaluation × MemStorage :=
  let ppmValue :=
    jsRound ((e.rejectedQuantity : ℚ) / (e.totalReceivedQuantity : ℚ) * 1000000)
  let ev : PpmEvaluation :=
    { id := s.nextId
      supplierId := e.supplierId
      materialDocument := e.materialDocument
      rejectedQuantity := e.rejectedQuantity
      totalReceivedQuantity := e.totalReceivedQuantity
      ppmValue := ppmValue
      createdAt := now }
  (ev, { s with nextId := s.nextId + 1
                ppmEvaluations := s.ppmEvaluations ++ [ev] })

/-! ## Configuration management (`storage.ts`, price category)

The five configuration categories are structurally identical in the source;
the price category — the one claim C4 cites — is embedded here. -/

/-- `getActivePriceConfiguration` (storage.ts:542):
`Array.from(values()).find(config => config.isActive)` — the first entry in
insertion order whose flag is set. -/
def getActivePriceConfiguration (s : MemStorage) : Option PriceConfiguration :=
  s.priceConfigurations.find? (fun c => c.isActive)

/-- `createPriceConfiguration` (storage.ts:546): fill defaults
(`|| "Default"`, `?? -5`, ..., `isActive ?? true`) and store under a fresh
id.  No other configuration's `isActive` flag is touched. -/
def createPriceConfiguration (config : InsertPriceConfiguration) (now : ℕ)
    (s : MemStorage) : PriceConfiguration × MemStorage :=
  let name := match config.name with
    | some n => if n = "" then "Default" else n
    | none => "Default"
  let description := match config.description with
    | some d => if d = "" then none else some d
    | none => none
  let priceConfig : PriceConfiguration :=
    { id := s.nextId
      name := name
      description := description
      excellentThreshold := config.excellentThreshold.getD (-5)
      goodThreshold := config.goodThreshold.getD (-2)
      acceptableThreshold := config.acceptableThreshold.getD 2
      penaltyRate := config.penaltyRate.getD 10
      minimumScore := config.minimumScore.getD 0
      isActive := config.isActive.getD true
      createdAt := now
      updatedAt := now }
  (priceConfig,
    { s with nextId := s.nextId + 1
             priceConfigurations := s.priceConfigurations ++ [priceConfig] })

/-- `updatePriceConfiguration` (storage.ts:565): `{...existing, ...config,
updatedAt: now}` — fields present in the patch overwrite, nothing else
changes, and no exclusivity of `isActive` is enforced. -/
def updatePriceConfiguration (id : ℕ) (config : InsertPriceConfiguration)
    (now : ℕ) (s : MemStorage) : Option PriceConfiguration × MemStorage :=
  match s.priceConfigurations.find? (fun c => c.id = id) with
  | none => (none, s)
  | some existing =>
      let updated : PriceConfiguration :=
        { existing with
            name := config.name.getD existing.name
            description := match config.description with
              | some d => some d
              | none => existing.description
            excellentThreshold := config.excellentThreshold.getD existing.excellentThreshold
            goodThreshold := config.goodThreshold.getD existing.goodThreshold
            acceptableThreshold :=
              config.acceptableThreshold.getD existing.acceptableThreshold
            penaltyRate := config.penaltyRate.getD existing.penaltyRate
            minimumScore := config.minimumScore.getD existing.minimumScore
            isActive := config.isActive.getD existing.isActive
            updatedAt := now }
      (some updated,
        { s with priceConfigurations :=
            s.priceConfigurations.map (fun c => if c.id = id then updated else c) })

/-- The storage state built by the `MemStorage` constructor
(`initializeSampleData` + `initializeDefaultConfigurations`): three sample
suppliers, each with a zeroed KPI snapshot, and one active default
configuration per category (only the price category's map is modelled;
the other four category maps are structurally identical).  UUIDs are drawn
in program order: supplier/KPI pairs get ids 0–5, the default price
configuration id 6; ids 7–10 go to the four remaining default
configurations, so the counter resumes at 11.  Construction time is 0. -/
def initialStorage : MemStorage :=
  { nextId := 11
    suppliers :=
      [ { id := 0, name := "ABC Manufacturing Ltd", code := "SUP-001"
          contactEmail := some "contact@abcmfg.com"
          contactPhone := some "+1-555-0101"
          address := some "123 Industrial Ave, Manufacturing City, MC 12345"
          createdAt := 0 }
      , { id := 2, name := "XYZ Components Inc", code := "SUP-002"
          contactEmail := some "sales@xyzcomp.com"
          contactPhone := some "+1-555-0102"
          address := some "456 Component St, Tech Valley, TV 67890"
          createdAt := 0 }
      , { id := 4, name := "Global Supply Co", code := "SUP-003"
          contactEmail := some "orders@globalsupply.com"
          contactPhone := some "+1-555-0103"
          address := some "789 Supply Chain Blvd, Logistics City, LC 54321"
          createdAt := 0 } ]
    priceEvaluations := []
    quantityEvaluations := []
    deliveryEvaluations := []
    qualityEvaluations := []
    ppmEvaluations := []
    supplierKpis :=
      [ { id := 1, supplierId := 0, priceScore := 0, quantityScore := 0
          deliveryScore := 0, qualityScore := 0, overallKpi := 0
          evaluationCount := 0, lastUpdated := 0 }
      , { id := 3, supplierId := 2, priceScore := 0, quantityScore := 0
          deliveryScore := 0, qualityScore := 0, overallKpi := 0
          evaluationCount := 0, lastUpdated := 0 }
      , { id := 5, supplierId := 4, priceScore := 0, quantityScore := 0
          deliveryScore := 0, qualityScore := 0, overallKpi := 0
          evaluationCount := 0, lastUpdated := 0 } ]
    priceConfigurations :=
      [ { id := 6, name := "SAP S4HANA Default"
          description := some "Standard SAP price variance scoring configuration"
          excellentThreshold := -5, goodThreshold := -2, acceptableThreshold := 2
          penaltyRate := 10, minimumScore := 0, isActive := true
          createdAt := 0, updatedAt := 0 } ] }

/-! ## Client-side parametric scoring (configuration-preview functions)

The configuration forms hold an `Insert*Configuration` value
(`form.getValues()`), whose possibly-absent numeric fields are defaulted
with `??` inside each `getScorePreview`. -/

structure InsertQuantityConfiguration where
  name : Option String
  description : Option String
  perfectDeliveryScore : Option ℤ
  shortfallPenaltyRate : Option ℚ
  overdeliveryPenaltyRate : Option ℚ
  minimumScore : Option ℤ
  isActive : Option Bool
deriving Repr, DecidableEq

structure InsertDeliveryConfiguration where
  name : Option String
  description : Option String
  onTimeScore : Option ℤ
  penaltyPerDay : Option ℤ
  maxOverdueDays : Option ℤ
  minimumScore : Option ℤ
  isActive : Option Bool
deriving Repr, DecidableEq

structure InsertQualityConfiguration where
  name : Option String
  description : Option String
  baseScore : Option ℤ
  notificationPenalty : Option ℤ
  inspectionOkBonus : Option ℤ
  inspectionNotOkPenalty : Option ℤ
  minimumScore : Option ℤ
  isActive : Option Bool
deriving Repr, DecidableEq

/-- `getScorePreview` of `PriceConfigurationForm` (unnamed client source,
part_007:74): threshold cascade, then
`Math.round(Math.max(70 - |v - acceptable| * penaltyRate, minimumScore))`. -/
def priceScorePreview (form : InsertPriceConfiguration) (variance : ℚ) : ℚ :=
  if variance ≤ form.excellentThreshold.getD (-5) then 100
  else if variance ≤ form.goodThreshold.getD (-2) then 80
  else if variance ≤ form.acceptableThreshold.getD 2 then 70
  else
    let penalty := |variance - form.acceptableThreshold.getD 2| * form.penaltyRate.getD 10
    let score := max (70 - penalty) ((form.minimumScore.getD 0 : ℚ))
    (jsRound score : ℚ)

/-- `getScorePreview` of `QuantityConfigurationForm` (unnamed client source,
part_005:74): exact match returns `perfectDeliveryScore`; otherwise the
shortfall/overdelivery penalty is applied and the result is
`Math.max(Math.round(score), minimumScore)` (rounding before the floor,
unlike the price form). -/
def quantityScorePreview (form : InsertQuantityConfiguration)
    (variancePercentage : ℚ) : ℚ :=
  if variancePercentage = 0 then (form.perfectDeliveryScore.getD 100 : ℚ)
  else
    let score :=
      if variancePercentage < 0 then
        (form.perfectDeliveryScore.getD 100 : ℚ) -
          |variancePercentage| * form.shortfallPenaltyRate.getD 5
      else
        (form.perfectDeliveryScore.getD 100 : ℚ) -
          variancePercentage * form.overdeliveryPenaltyRate.getD 2
    max ((jsRound score : ℤ) : ℚ) ((form.minimumScore.getD 0 : ℚ))

/-- `getScorePreview` of the delivery configuration form
(`delivery-configuration-form.tsx:74`). -/
def deliveryScorePreview (form : InsertDeliveryConfiguration)
    (overdueDays : ℤ) : ℚ :=
  if overdueDays ≤ 0 then (form.onTimeScore.getD 100 : ℚ)
  else
    let penalty := (overdueDays : ℚ) * ((form.penaltyPerDay.getD 5 : ℤ) : ℚ)
    let score := max ((form.onTimeScore.getD 100 : ℚ) - penalty)
      ((form.minimumScore.getD 0 : ℚ))
    (jsRound score : ℚ)

/-- `getScorePreview` of the quality configuration form
(`quality-configuration-form.tsx:76`): linear model
`baseScore - notifications * notificationPenalty`, then the inspection
bonus/penalty, then `Math.max(Math.round(score), minimumScore)`. -/
def qualityScorePreview (form : InsertQualityConfiguration)
    (notifications : ℤ) (inspectionResult : InspectionResult) : ℚ :=
  let afterNotifications :=
    ((form.baseScore.getD 100 : ℤ) : ℚ) -
      (notifications : ℚ) * ((form.notificationPenalty.getD 10 : ℤ) : ℚ)
  let score :=
    match inspectionResult with
    | InspectionResult.OK => afterNotifications + ((form.inspectionOkBonus.getD 0 : ℤ) : ℚ)
    | InspectionResult.NOT_OK =>
        afterNotifications - ((form.inspectionNotOkPenalty.getD 20 : ℤ) : ℚ)
  max ((jsRound score : ℤ) : ℚ) ((form.minimumScore.getD 0 : ℚ))

/-! ## Client form validation (`formSchema` refinements) -/

/-- Refinements of the price configuration `formSchema` (part_007:20). -/
def priceConfigurationFormValid (c : InsertPriceConfiguration) : Prop :=
  c.excellentThreshold.getD (-5) ≤ 0 ∧
  0 ≤ c.penaltyRate.getD 10 ∧
  0 ≤ c.minimumScore.getD 0 ∧ c.minimumScore.getD 0 ≤ 100

instance (c : InsertPriceConfiguration) : Decidable (priceConfigurationFormValid c) := by
  unfold priceConfigurationFormValid; infer_instance

/-- Refinements of the quantity configuration `formSchema` (part_005:19). -/
def quantityConfigurationFormValid (c : InsertQuantityConfiguration) : Prop :=
  0 ≤ c.perfectDeliveryScore.getD 100 ∧ c.perfectDeliveryScore.getD 100 ≤ 100 ∧
  0 ≤ c.shortfallPenaltyRate.getD 5 ∧
  0 ≤ c.overdeliveryPenaltyRate.getD 2 ∧
  0 ≤ c.minimumScore.getD 0 ∧ c.minimumScore.getD 0 ≤ 100

instance (c : InsertQuantityConfiguration) :
    Decidable (quantityConfigurationFormValid c) := by
  unfold quantityConfigurationFormValid; infer_instance

/-- Refinements of the delivery configuration `formSchema`
(`delivery-configuration-form.tsx:20`). -/
def deliveryConfigurationFormValid (c : InsertDeliveryConfiguration) : Prop :=
  0 ≤ c.onTimeScore.getD 100 ∧ c.onTimeScore.getD 100 ≤ 100 ∧
  0 ≤ c.penaltyPerDay.getD 5 ∧
  1 ≤ c.maxOverdueDays.getD 20 ∧
  0 ≤ c.minimumScore.getD 0 ∧ c.minimumScore.getD 0 ≤ 100

instance (c : InsertDeliveryConfiguration) :
    Decidable (deliveryConfigurationFormValid c) := by
  unfold deliveryConfigurationFormValid; infer_instance

/-- Refinements of the quality configuration `formSchema`
(`quality-configuration-form.tsx:20`): note that `inspectionOkBonus` is only
required to be non-negative — it has no upper bound. -/
def qualityConfigurationFormValid (c : InsertQualityConfiguration) : Prop :=
  0 ≤ c.baseScore.getD 100 ∧ c.baseScore.getD 100 ≤ 100 ∧
  0 ≤ c.notificationPenalty.getD 10 ∧
  0 ≤ c.inspectionOkBonus.getD 0 ∧
  0 ≤ c.inspectionNotOkPenalty.getD 20 ∧
  0 ≤ c.minimumScore.getD 0 ∧ c.minimumScore.getD 0 ≤ 100

instance (c : InsertQualityConfiguration) :
    Decidable (qualityConfigurationFormValid c) := by
  unfold qualityConfigurationFormValid; infer_instance

/-- `getPpmRange` (`ppm-evaluations-list.tsx:44`): the descriptive PPM tier
shown by the list view. -/
def getPpmRange (ppmValue : ℤ) : String :=
  if ppmValue = 0 then "Zero Defects"
  else if ppmValue < 1000 then "Excellent"
  else if ppmValue < 10000 then "Good"
  else "Needs Improvement"

/-! ## Spec-side definitions

These follow the specification's wording and are compared against the
code-side definitions above. -/

/-- Arithmetic mean of a list of scores, 0 when the list is empty — the
specification's category mean. -/
def arithMean (l : List ℚ) : ℚ :=
  if l = [] then 0 else l.sum / (l.length : ℚ)

/-- The specification's description of a freshly recomputed KPI snapshot
for supplier `sid` in state `s`: the stored snapshot exists and carries the
arithmetic mean of each category's per-evaluation scores, the overall KPI
as the mean of the four category values, and the total evaluation count
over the four scoring categories. -/
def kpiIsRecomputed (s : MemStorage) (sid : ℕ) : Prop :=
  ∃ k, getSupplierKpi s sid = some k ∧
    k.priceScore = arithMean ((getPriceEvaluations s sid).map (fun e => e.score)) ∧
    k.quantityScore = arithMean ((getQuantityEvaluations s sid).map (fun e => e.score)) ∧
    k.deliveryScore = arithMean ((getDeliveryEvaluations s sid).map (fun e => e.score)) ∧
    k.qualityScore = arithMean ((getQualityEvaluations s sid).map (fun e => e.overallScore)) ∧
    k.overallKpi = (k.priceScore + k.quantityScore + k.deliveryScore + k.qualityScore) / 4 ∧
    k.evaluationCount =
      (getPriceEvaluations s sid).length + (getQuantityEvaluations s sid).length +
      (getDeliveryEvaluations s sid).length + (getQualityEvaluations s sid).length

/-- The price configuration form's `defaultValues` (part_007:31): the
default parametric configuration named in claim C8. -/
def defaultPriceConfigForm : InsertPriceConfiguration :=
  { name := some "SAP S4HANA Default"
    description := some ""
    excellentThreshold := some (-5)
    goodThreshold := some (-2)
    acceptableThreshold := some 2
    penaltyRate := some 10
    minimumScore := some 0
    isActive := some true }

/-- A quality configuration that differs from the form's `defaultValues`
only in `inspectionOkBonus = 1`; every refinement of the quality
configuration `formSchema` accepts it. -/
def bonusQualityConfigForm : InsertQualityConfiguration :=
  { name := some "SAP S4HANA Default"
    description := some ""
    baseScore := some 100
    notificationPenalty := some 10
    inspectionOkBonus := some 1
    inspectionNotOkPenalty := some 20
    minimumScore := some 0
    isActive := some true }

/-- The quantity configuration form's `defaultValues`. -/
def defaultQuantityConfigForm : InsertQuantityConfiguration :=
  { name := some "SAP S4HANA Default"
    description := some ""
    perfectDeliveryScore := some 100
    shortfallPenaltyRate := some 5
    overdeliveryPenaltyRate := some 2
    minimumScore := some 0
    isActive := some true }

/-- The delivery configuration form's `defaultValues`. -/
def defaultDeliveryConfigForm : InsertDeliveryConfiguration :=
  { name := some "SAP S4HANA Default"
    description := some ""
    onTimeScore := some 100
    penaltyPerDay := some 5
    maxOverdueDays := some 20
    minimumScore := some 0
    isActive := some true }

/-- The quality configuration form's `defaultValues`. -/
def defaultQualityConfigForm : InsertQualityConfiguration :=
  { name := some "SAP S4HANA Default"
    description := some ""
    baseScore := some 100
    notificationPenalty := some 10
    inspectionOkBonus := some 0
    inspectionNotOkPenalty := some 20
    minimumScore := some 0
    isActive := some true }

/-! ## Helper lemmas -/

theorem jsRound_le {q : ℚ} {n : ℤ} (h : q ≤ (n : ℚ)) : jsRound q ≤ n := by
  unfold jsRound
  by_contra hc
  push_neg at hc
  have h2 : ((n + 1 : ℤ) : ℚ) ≤ q + 1/2 := Int.le_floor.mp (Int.add_one_le_iff.mpr hc)
  push_cast at h2
  linarith

theorem le_jsRound {q : ℚ} {n : ℤ} (h : (n : ℚ) ≤ q) : n ≤ jsRound q := by
  unfold jsRound
  exact Int.le_floor.mpr (by linarith)

theorem jsRound_intCast (n : ℤ) : jsRound ((n : ℤ) : ℚ) = n :=
  le_antisymm (jsRound_le le_rfl) (le_jsRound le_rfl)

theorem find?_eq_head?_filter {α : Type} (p : α → Bool) (l : List α) :
    l.find? p = (l.filter p).head? := by
  induction l with
  | nil => rfl
  | cons a t ih =>
      by_cases h : p a
      · rw [List.find?_cons_of_pos _ h, List.filter_cons_of_pos h, List.head?_cons]
      · simp only [Bool.not_eq_true] at h
        rw [List.find?_cons_of_neg _ (by simp [h]), List.filter_cons_of_neg (by simp [h]), ih]

theorem find?_map_replace (l : List SupplierKpi) (sid : ℕ) (k : SupplierKpi)
    (hk : k.supplierId = sid) (h : l.any (fun e => e.supplierId = sid) = true) :
    (l.map (fun e => if e.supplierId = sid then k else e)).find?
      (fun e => e.supplierId = sid) = some k := by
  induction l with
  | nil => simp at h
  | cons a t ih =>
      simp only [List.map_cons, List.find?_cons]
      by_cases ha : a.supplierId = sid
      · simp [ha, hk]
      · have h' : t.any (fun e => e.supplierId = sid) = true := by
          simpa [ha] using h
        simp [ha, ih h']

theorem find?_append_singleton (l : List SupplierKpi) (sid : ℕ) (k : SupplierKpi)
    (hk : k.supplierId = sid) (h : l.any (fun e => e.supplierId = sid) = false) :
    (l ++ [k]).find? (fun e => e.supplierId = sid) = some k := by
  induction l with
  | nil => simp [List.find?_cons, hk]
  | cons a t ih =>
      have ha : ¬ (a.supplierId = sid) := by
        intro hc
        simp [hc] at h
      have h' : t.any (fun e => e.supplierId = sid) = false := by
        simpa [ha] using h
      simp [List.find?_cons, ha, ih h']

theorem find?_setKpiEntry (l : List SupplierKpi) (sid : ℕ) (k : SupplierKpi)
    (hk : k.supplierId = sid) :
    (setKpiEntry l sid k).find? (fun e => e.supplierId = sid) = some k := by
  unfold setKpiEntry
  by_cases h : l.any (fun e => e.supplierId = sid) = true
  · rw [if_pos h]
    exact find?_map_replace l sid k hk h
  · rw [if_neg h]
    exact find?_append_singleton l sid k hk (Bool.not_eq_true _ ▸ eq_false_of_ne_true h)

theorem map_replace_of_no_match (l : List SupplierKpi) (sid : ℕ) (k : SupplierKpi)
    (h : ∀ e ∈ l, ¬ (e.supplierId = sid)) :
    l.map (fun e => if e.supplierId = sid then k else e) = l := by
  induction l with
  | nil => rfl
  | cons a t ih =>
      have ha := h a (by simp)
      rw [List.map_cons, if_neg ha, ih (fun e he => h e (by simp [he]))]

theorem setKpiEntry_idem (l : List SupplierKpi) (sid : ℕ) (k : SupplierKpi)
    (hk : k.supplierId = sid) :
    setKpiEntry (setKpiEntry l sid k) sid k = setKpiEntry l sid k := by
  unfold setKpiEntry
  by_cases h : l.any (fun e => e.supplierId = sid) = true
  · rw [if_pos h]
    have hany : (l.map (fun e => if e.supplierId = sid then k else e)).any
        (fun e => e.supplierId = sid) = true := by
      obtain ⟨x, hx, hpx⟩ := List.any_eq_true.mp h
      exact List.any_eq_true.mpr
        ⟨(if x.supplierId = sid then k else x), List.mem_map.mpr ⟨x, hx, rfl⟩, by
          simp only [of_decide_eq_true hpx, if_true]
          simpa using hk⟩
    rw [if_pos hany, List.map_map]
    congr 1
    funext e
    by_cases he : e.supplierId = sid
    · simp [he, hk]
    · simp [he]
  · rw [if_neg h]
    have hall : ∀ e ∈ l, ¬ (e.supplierId = sid) := by
      intro e he hc
      exact h (List.any_eq_true.mpr ⟨e, he, by simp [hc]⟩)
    have hany : (l ++ [k]).any (fun e => e.supplierId = sid) = true := by
      simp [hk]
    rw [if_pos hany, List.map_append, map_replace_of_no_match l sid k hall]
    simp [hk]

/-- The state `updateSupplierKpi` writes: it only replaces `supplierKpis`
(and possibly bumps the UUID counter); every evaluation store is kept. -/
theorem updateSupplierKpi_frame (sid : ℕ) (kd : KpiData) (s : MemStorage) :
    (updateSupplierKpi sid kd s).2.priceEvaluations = s.priceEvaluations ∧
    (updateSupplierKpi sid kd s).2.quantityEvaluations = s.quantityEvaluations ∧
    (updateSupplierKpi sid kd s).2.deliveryEvaluations = s.deliveryEvaluations ∧
    (updateSupplierKpi sid kd s).2.qualityEvaluations = s.qualityEvaluations ∧
    (updateSupplierKpi sid kd s).2.ppmEvaluations = s.ppmEvaluations ∧
    (updateSupplierKpi sid kd s).2.suppliers = s.suppliers ∧
    (updateSupplierKpi sid kd s).2.priceConfigurations = s.priceConfigurations := by
  unfold updateSupplierKpi
  cases s.supplierKpis.find? (fun k => k.supplierId = sid) <;>
    exact ⟨rfl, rfl, rfl, rfl, rfl, rfl, rfl⟩

/-- Characterization of `updateSupplierKpi`: the written snapshot carries
exactly the supplied `kpiData` fields for supplier `sid`, and the map update
is `setKpiEntry`. -/
theorem updateSupplierKpi_spec (sid : ℕ) (kd : KpiData) (s : MemStorage) :
    (updateSupplierKpi sid kd s).1.supplierId = sid ∧
    (updateSupplierKpi sid kd s).1.priceScore = kd.priceScore ∧
    (updateSupplierKpi sid kd s).1.quantityScore = kd.quantityScore ∧
    (updateSupplierKpi sid kd s).1.deliveryScore = kd.deliveryScore ∧
    (updateSupplierKpi sid kd s).1.qualityScore = kd.qualityScore ∧
    (updateSupplierKpi sid kd s).1.overallKpi = kd.overallKpi ∧
    (updateSupplierKpi sid kd s).1.evaluationCount = kd.evaluationCount ∧
    (updateSupplierKpi sid kd s).1.lastUpdated = kd.lastUpdated ∧
    (updateSupplierKpi sid kd s).2.supplierKpis =
      setKpiEntry s.supplierKpis sid (updateSupplierKpi sid kd s).1 := by
  unfold updateSupplierKpi
  cases hf : s.supplierKpis.find? (fun k => k.supplierId = sid) with
  | none => exact ⟨rfl, rfl, rfl, rfl, rfl, rfl, rfl, rfl, rfl⟩
  | some e =>
      refine ⟨?_, rfl, rfl, rfl, rfl, rfl, rfl, rfl, rfl⟩
      have h1 := List.find?_some hf
      exact of_decide_eq_true h1

theorem code_mean_eq_arithMean {α : Type} (f : α → ℚ) (l : List α) :
    (if 0 < l.length then (l.map f).sum / (l.length : ℚ) else 0) = arithMean (l.map f) := by
  cases l with
  | nil => simp [arithMean]
  | cons a t => simp [arithMean]

/-- The four category fields of the recomputed `kpiData` are the
specification's arithmetic means, the overall KPI is the mean of the four
category values, the count is the total, and the timestamp is the supplied
one. -/
theorem recomputeKpiData_fields (sid now : ℕ) (s : MemStorage) :
    (recomputeKpiData sid now s).priceScore =
      arithMean ((getPriceEvaluations s sid).map (fun e => e.score)) ∧
    (recomputeKpiData sid now s).quantityScore =
      arithMean ((getQuantityEvaluations s sid).map (fun e => e.score)) ∧
    (recomputeKpiData sid now s).deliveryScore =
      arithMean ((getDeliveryEvaluations s sid).map (fun e => e.score)) ∧
    (recomputeKpiData sid now s).qualityScore =
      arithMean ((getQualityEvaluations s sid).map (fun e => e.overallScore)) ∧
    (recomputeKpiData sid now s).overallKpi =
      ((recomputeKpiData sid now s).priceScore + (recomputeKpiData sid now s).quantityScore +
        (recomputeKpiData sid now s).deliveryScore + (recomputeKpiData sid now s).qualityScore) / 4 ∧
    (recomputeKpiData sid now s).evaluationCount =
      (getPriceEvaluations s sid).length + (getQuantityEvaluations s sid).length +
      (getDeliveryEvaluations s sid).length + (getQualityEvaluations s sid).length ∧
    (recomputeKpiData sid now s).lastUpdated = now :=
  ⟨code_mean_eq_arithMean _ _, code_mean_eq_arithMean _ _, code_mean_eq_arithMean _ _,
    code_mean_eq_arithMean _ _, rfl, rfl, rfl⟩

/-- Recomputing the `kpiData` in any state with the same evaluation stores
yields the same data up to the timestamp. -/
theorem recomputeKpiData_of_frame (sid t t' : ℕ) (s s' : MemStorage)
    (hp : s'.priceEvaluations = s.priceEvaluations)
    (hq : s'.quantityEvaluations = s.quantityEvaluations)
    (hd : s'.deliveryEvaluations = s.deliveryEvaluations)
    (hql : s'.qualityEvaluations = s.qualityEvaluations) :
    recomputeKpiData sid t' s' = { recomputeKpiData sid t s with lastUpdated := t' } := by
  simp only [recomputeKpiData, getPriceEvaluations, getQuantityEvaluations,
    getDeliveryEvaluations, getQualityEvaluations]
  rw [hp, hq, hd, hql]

/-- `updateSupplierKpi` reuses a found entry's id and does not consume a
fresh UUID. -/
theorem updateSupplierKpi_id_of_find (sid : ℕ) (kd : KpiData) (s : MemStorage)
    (e : SupplierKpi)
    (hf : s.supplierKpis.find? (fun k => k.supplierId = sid) = some e) :
    (updateSupplierKpi sid kd s).1.id = e.id ∧
    (updateSupplierKpi sid kd s).2.nextId = s.nextId := by
  unfold updateSupplierKpi
  rw [hf]
  exact ⟨rfl, rfl⟩

theorem memStorage_fields_ext {a b : MemStorage} (h1 : a.nextId = b.nextId)
    (h2 : a.suppliers = b.suppliers)
    (h3 : a.priceEvaluations = b.priceEvaluations)
    (h4 : a.quantityEvaluations = b.quantityEvaluations)
    (h5 : a.deliveryEvaluations = b.deliveryEvaluations)
    (h6 : a.qualityEvaluations = b.qualityEvaluations)
    (h7 : a.ppmEvaluations = b.ppmEvaluations)
    (h8 : a.supplierKpis = b.supplierKpis)
    (h9 : a.priceConfigurations = b.priceConfigurations) : a = b := by
  cases a
  cases b
  simp_all

theorem supplierKpi_fields_ext {a b : SupplierKpi} (h1 : a.id = b.id)
    (h2 : a.supplierId = b.supplierId) (h3 : a.priceScore = b.priceScore)
    (h4 : a.quantityScore = b.quantityScore) (h5 : a.deliveryScore = b.deliveryScore)
    (h6 : a.qualityScore = b.qualityScore) (h7 : a.overallKpi = b.overallKpi)
    (h8 : a.evaluationCount = b.evaluationCount) (h9 : a.lastUpdated = b.lastUpdated) :
    a = b := by
  cases a
  cases b
  simp_all

/-- After any `updateSupplierKpis` run, the specification's description of a
recomputed snapshot holds for the targeted supplier. -/
theorem kpiIsRecomputed_updateSupplierKpis (sid now : ℕ) (s : MemStorage) :
    kpiIsRecomputed (updateSupplierKpis sid now s) sid := by
  obtain ⟨hsid, hp, hq, hd, hql, ho, hc, hl, hmap⟩ :=
    updateSupplierKpi_spec sid (recomputeKpiData sid now s) s
  obtain ⟨fp, fq, fd, fql, fppm, fsup, fcfg⟩ :=
    updateSupplierKpi_frame sid (recomputeKpiData sid now s) s
  obtain ⟨rp, rq, rd, rql, ro, rc, rl⟩ := recomputeKpiData_fields sid now s
  have hs1 : updateSupplierKpis sid now s =
      (updateSupplierKpi sid (recomputeKpiData sid now s) s).2 := rfl
  have hgp : getPriceEvaluations (updateSupplierKpis sid now s) sid =
      getPriceEvaluations s sid := by
    unfold getPriceEvaluations
    rw [hs1, fp]
  have hgq : getQuantityEvaluations (updateSupplierKpis sid now s) sid =
      getQuantityEvaluations s sid := by
    unfold getQuantityEvaluations
    rw [hs1, fq]
  have hgd : getDeliveryEvaluations (updateSupplierKpis sid now s) sid =
      getDeliveryEvaluations s sid := by
    unfold getDeliveryEvaluations
    rw [hs1, fd]
  have hgql : getQualityEvaluations (updateSupplierKpis sid now s) sid =
      getQualityEvaluations s sid := by
    unfold getQualityEvaluations
    rw [hs1, fql]
  refine ⟨(updateSupplierKpi sid (recomputeKpiData sid now s) s).1, ?_, ?_, ?_, ?_, ?_, ?_, ?_⟩
  · unfold getSupplierKpi
    rw [hs1, hmap]
    exact find?_setKpiEntry _ _ _ hsid
  · rw [hgp, hp, rp]
  · rw [hgq, hq, rq]
  · rw [hgd, hd, rd]
  · rw [hgql, hql, rql]
  · rw [ho, hp, hq, hd, hql, ro]
  · rw [hgp, hgq, hgd, hgql, hc, rc]

/-- C7: for every supplier and state, running the KPI recompute
(`updateSupplierKpis`) twice in a row with no evaluations added in between
yields a snapshot identical to the first run's: the second run only rewrites
the snapshot's `lastUpdated` timestamp with its own run time, so when the
two runs carry the same clock value the entire storage state — snapshot
included — is unchanged by the second run. -/
theorem kpi_recompute_idempotent (sid t t' : ℕ) (s : MemStorage) :
    getSupplierKpi (updateSupplierKpis sid t' (updateSupplierKpis sid t s)) sid =
      (getSupplierKpi (updateSupplierKpis sid t s) sid).map
        (fun k => { k with lastUpdated := t' }) ∧
    updateSupplierKpis sid t (updateSupplierKpis sid t s) =
      updateSupplierKpis sid t s := by
  obtain ⟨h1sid, h1p, h1q, h1d, h1ql, h1o, h1c, h1l, h1map⟩ :=
    updateSupplierKpi_spec sid (recomputeKpiData sid t s) s
  obtain ⟨f1p, f1q, f1d, f1ql, f1ppm, f1sup, f1cfg⟩ :=
    updateSupplierKpi_frame sid (recomputeKpiData sid t s) s
  have hs1 : updateSupplierKpis sid t s =
      (updateSupplierKpi sid (recomputeKpiData sid t s) s).2 := rfl
  have hf2 : (updateSupplierKpis sid t s).supplierKpis.find?
      (fun k => k.supplierId = sid) =
      some (updateSupplierKpi sid (recomputeKpiData sid t s) s).1 := by
    rw [hs1, h1map]
    exact find?_setKpiEntry _ _ _ h1sid
  have hkd : ∀ u : ℕ, recomputeKpiData sid u (updateSupplierKpis sid t s) =
      { recomputeKpiData sid t s with lastUpdated := u } := by
    intro u
    refine recomputeKpiData_of_frame sid t u s _ ?_ ?_ ?_ ?_ <;> rw [hs1]
    · exact f1p
    · exact f1q
    · exact f1d
    · exact f1ql
  constructor
  · obtain ⟨h2sid, h2p, h2q, h2d, h2ql, h2o, h2c, h2l, h2map⟩ :=
      updateSupplierKpi_spec sid (recomputeKpiData sid t' (updateSupplierKpis sid t s))
        (updateSupplierKpis sid t s)
    obtain ⟨hid2, hnext2⟩ := updateSupplierKpi_id_of_find sid
      (recomputeKpiData sid t' (updateSupplierKpis sid t s)) (updateSupplierKpis sid t s)
      _ hf2
    have hget2 : getSupplierKpi (updateSupplierKpis sid t' (updateSupplierKpis sid t s)) sid =
        some (updateSupplierKpi sid (recomputeKpiData sid t' (updateSupplierKpis sid t s))
          (updateSupplierKpis sid t s)).1 := by
      unfold getSupplierKpi
      rw [show updateSupplierKpis sid t' (updateSupplierKpis sid t s) =
          (updateSupplierKpi sid (recomputeKpiData sid t' (updateSupplierKpis sid t s))
            (updateSupplierKpis sid t s)).2 from rfl, h2map]
      exact find?_setKpiEntry _ _ _ h2sid
    have hget1 : getSupplierKpi (updateSupplierKpis sid t s) sid =
        some (updateSupplierKpi sid (recomputeKpiData sid t s) s).1 := hf2
    rw [hget2, hget1, Option.map_some']
    congr 1
    apply supplierKpi_fields_ext
    · exact hid2
    · rw [h2sid, h1sid]
    · rw [h2p, hkd t']
      exact h1p.symm
    · rw [h2q, hkd t']
      exact h1q.symm
    · rw [h2d, hkd t']
      exact h1d.symm
    · rw [h2ql, hkd t']
      exact h1ql.symm
    · rw [h2o, hkd t']
      exact h1o.symm
    · rw [h2c, hkd t']
      exact h1c.symm
    · rw [h2l, hkd t']
  · obtain ⟨h2sid, h2p, h2q, h2d, h2ql, h2o, h2c, h2l, h2map⟩ :=
      updateSupplierKpi_spec sid (recomputeKpiData sid t (updateSupplierKpis sid t s))
        (updateSupplierKpis sid t s)
    obtain ⟨f2p, f2q, f2d, f2ql, f2ppm, f2sup, f2cfg⟩ :=
      updateSupplierKpi_frame sid (recomputeKpiData sid t (updateSupplierKpis sid t s))
        (updateSupplierKpis sid t s)
    obtain ⟨hid2, hnext2⟩ := updateSupplierKpi_id_of_find sid
      (recomputeKpiData sid t (updateSupplierKpis sid t s)) (updateSupplierKpis sid t s)
      _ hf2
    have hu : (updateSupplierKpi sid (recomputeKpiData sid t (updateSupplierKpis sid t s))
        (updateSupplierKpis sid t s)).1 =
        (updateSupplierKpi sid (recomputeKpiData sid t s) s).1 := by
      apply supplierKpi_fields_ext
      · exact hid2
      · rw [h2sid, h1sid]
      · rw [h2p, hkd t]
        exact h1p.symm
      · rw [h2q, hkd t]
        exact h1q.symm
      · rw [h2d, hkd t]
        exact h1d.symm
      · rw [h2ql, hkd t]
        exact h1ql.symm
      · rw [h2o, hkd t]
        exact h1o.symm
      · rw [h2c, hkd t]
        exact h1c.symm
      · rw [h2l, hkd t]
        exact h1l.symm
    apply memStorage_fields_ext
    · exact hnext2
    · exact f2sup
    · exact f2p
    · exact f2q
    · exact f2d
    · exact f2ql
    · exact f2ppm
    · show (updateSupplierKpi sid (recomputeKpiData sid t (updateSupplierKpis sid t s))
          (updateSupplierKpis sid t s)).2.supplierKpis =
        (updateSupplierKpis sid t s).supplierKpis
      rw [h2map, hu, hs1, h1map,
        setKpiEntry_idem s.supplierKpis sid _ h1sid]
    · exact f2cfg

theorem calculatePriceScore_eq_bandSpec (v : ℚ) :
    calculatePriceScore v = priceBandSpec v := by
  rcases le_or_lt 20 v with h1 | h1
  · simp [calculatePriceScore, priceBandSpec, h1]
  rcases le_or_lt 10 v with h2 | h2
  · simp [calculatePriceScore, priceBandSpec, not_le.mpr h1, h1, h2]
  rcases le_or_lt 5 v with h3 | h3
  · simp [calculatePriceScore, priceBandSpec, not_le.mpr h1, not_le.mpr h2, h2, h3]
  rcases le_or_lt 0 v with h4 | h4
  · simp [calculatePriceScore, priceBandSpec, not_le.mpr h1, not_le.mpr h2, not_le.mpr h3,
      h3, h4]
  rcases le_or_lt (-5) v with h5 | h5
  · simp [calculatePriceScore, priceBandSpec, not_le.mpr h1, not_le.mpr h2, not_le.mpr h3,
      not_le.mpr h4, h4, h5]
  rcases le_or_lt (-10) v with h6 | h6
  · simp [calculatePriceScore, priceBandSpec, not_le.mpr h1, not_le.mpr h2, not_le.mpr h3,
      not_le.mpr h4, not_le.mpr h5, h5, h6]
  rcases le_or_lt (-20) v with h7 | h7
  · simp [calculatePriceScore, priceBandSpec, not_le.mpr h1, not_le.mpr h2, not_le.mpr h3,
      not_le.mpr h4, not_le.mpr h5, not_le.mpr h6, h6, h7]
  simp [calculatePriceScore, priceBandSpec, not_le.mpr h1, not_le.mpr h2, not_le.mpr h3,
    not_le.mpr h4, not_le.mpr h5, not_le.mpr h6, not_le.mpr h7]

theorem calculatePriceScore_bounds (v : ℚ) :
    0 ≤ calculatePriceScore v ∧ calculatePriceScore v ≤ 100 := by
  unfold calculatePriceScore
  split_ifs <;> norm_num

theorem calculateQuantityScore_bounds (v : ℚ) :
    0 ≤ calculateQuantityScore v ∧ calculateQuantityScore v ≤ 100 := by
  unfold calculateQuantityScore
  split_ifs <;> norm_num

theorem calculateDeliveryScore_bounds (d : ℤ) :
    0 ≤ calculateDeliveryScore d ∧ calculateDeliveryScore d ≤ 100 := by
  unfold calculateDeliveryScore
  split_ifs <;> norm_num

theorem calculateQualityNotificationScore_bounds (n : ℤ) :
    0 ≤ calculateQualityNotificationScore n ∧ calculateQualityNotificationScore n ≤ 100 := by
  unfold calculateQualityNotificationScore
  split_ifs <;> norm_num

theorem quality_fixed_overall_bounds (e : InsertQualityEvaluation) (now : ℕ)
    (s : MemStorage) :
    0 ≤ (createQualityEvaluation e now s).1.overallScore ∧
    (createQualityEvaluation e now s).1.overallScore ≤ 100 := by
  show 0 ≤ (calculateQualityNotificationScore e.qualityNotifications +
      (if e.inspectionResult = InspectionResult.OK then (100 : ℚ) else 1)) / 2 ∧
    (calculateQualityNotificationScore e.qualityNotifications +
      (if e.inspectionResult = InspectionResult.OK then (100 : ℚ) else 1)) / 2 ≤ 100
  have h := calculateQualityNotificationScore_bounds e.qualityNotifications
  split_ifs <;> constructor <;> linarith [h.1, h.2]

/-- C1: for every state, supplier and evaluation payload, the KPI recompute
run synchronously after each of the four evaluation-create operations leaves
the supplier's `SupplierKpi` snapshot holding each category's arithmetic
mean of per-evaluation scores (0 when the category is empty), the overall
KPI as the arithmetic mean of the four category values, and the evaluation
count as the total number of the supplier's price, quantity, delivery and
quality evaluations. -/
theorem evaluationCreate_recomputes_supplier_kpi (ep : InsertPriceEvaluation)
    (eq2 : InsertQuantityEvaluation) (ed : InsertDeliveryEvaluation)
    (eql : InsertQualityEvaluation) (now : ℕ) (s : MemStorage) :
    kpiIsRecomputed (createPriceEvaluation ep now s).2 ep.supplierId ∧
    kpiIsRecomputed (createQuantityEvaluation eq2 now s).2 eq2.supplierId ∧
    kpiIsRecomputed (createDeliveryEvaluation ed now s).2 ed.supplierId ∧
    kpiIsRecomputed (createQualityEvaluation eql now s).2 eql.supplierId :=
  ⟨kpiIsRecomputed_updateSupplierKpis _ _ _,
   kpiIsRecomputed_updateSupplierKpis _ _ _,
   kpiIsRecomputed_updateSupplierKpis _ _ _,
   kpiIsRecomputed_updateSupplierKpis _ _ _⟩

/-- C2: for every price evaluation input with positive PO price, the fixed
table `calculatePriceScore` agrees with the spec's 8 half-open bands at
every variance, the stored variance percentage is
`(invoicePrice - poPrice)/poPrice * 100`, the stored score is the fixed
table applied to it, and in particular `poPrice = 2.55`,
`invoicePrice = 1.27` yields score 95. -/
theorem price_fixed_table_score (v : ℚ) (e : InsertPriceEvaluation) (now : ℕ)
    (s : MemStorage) (hp : 0 < e.poPrice) :
    calculatePriceScore v = priceBandSpec v ∧
    (createPriceEvaluation e now s).1.variancePercentage =
      (e.invoicePrice - e.poPrice) / e.poPrice * 100 ∧
    (createPriceEvaluation e now s).1.score =
      calculatePriceScore ((e.invoicePrice - e.poPrice) / e.poPrice * 100) ∧
    (createPriceEvaluation
      { supplierId := 0, poNumber := "4500001", itemNumber := "10",
        poPrice := 2.55, invoicePrice := 1.27, quantity := 1 } now s).1.score = 95 := by
  refine ⟨calculatePriceScore_eq_bandSpec v, rfl, rfl, ?_⟩
  show calculatePriceScore (((1.27 : ℚ) - 2.55) / 2.55 * 100) = 95
  norm_num [calculatePriceScore]

theorem price_fixed_table_score_witness :
    calculatePriceScore 3 = priceBandSpec 3 ∧
    (createPriceEvaluation
      { supplierId := 0, poNumber := "4500001", itemNumber := "10",
        poPrice := 2.55, invoicePrice := 1.27, quantity := 1 } 0
      initialStorage).1.variancePercentage = ((1.27 : ℚ) - 2.55) / 2.55 * 100 ∧
    (createPriceEvaluation
      { supplierId := 0, poNumber := "4500001", itemNumber := "10",
        poPrice := 2.55, invoicePrice := 1.27, quantity := 1 } 0
      initialStorage).1.score =
      calculatePriceScore (((1.27 : ℚ) - 2.55) / 2.55 * 100) ∧
    (createPriceEvaluation
      { supplierId := 0, poNumber := "4500001", itemNumber := "10",
        poPrice := 2.55, invoicePrice := 1.27, quantity := 1 } 0
      initialStorage).1.score = 95 :=
  price_fixed_table_score 3
    { supplierId := 0, poNumber := "4500001", itemNumber := "10",
      poPrice := 2.55, invoicePrice := 1.27, quantity := 1 } 0 initialStorage
    (by norm_num)

/-- C5: for every state and PPM evaluation input, `createPpmEvaluation`
appends the new PPM record but leaves every supplier's KPI snapshot store
untouched — defect-rate evaluations never feed the composite KPI. -/
theorem ppm_create_leaves_kpi_unchanged (e : InsertPpmEvaluation) (now : ℕ)
    (s : MemStorage) :
    (createPpmEvaluation e now s).2.supplierKpis = s.supplierKpis ∧
    (createPpmEvaluation e now s).2.ppmEvaluations =
      s.ppmEvaluations ++ [(createPpmEvaluation e now s).1] :=
  ⟨rfl, rfl⟩

/-- C9: for every PPM input with `rejectedQuantity ≥ 0` and
`totalReceivedQuantity ≥ 1`, the stored `ppmValue` is
`round(J / T * 1_000_000)`, any `ppmValue ≥ 10000` is classified
"Needs Improvement" by the list view, and in particular `J = 20, T = 25`
yields `ppmValue = 800000`, classified "Needs Improvement". -/
theorem ppm_value_and_classification (e : InsertPpmEvaluation) (now : ℕ)
    (s : MemStorage) (p : ℤ) (hJ : 0 ≤ e.rejectedQuantity)
    (hT : 1 ≤ e.totalReceivedQuantity) (hp : 10000 ≤ p) :
    (createPpmEvaluation e now s).2.ppmEvaluations =
      s.ppmEvaluations ++ [(createPpmEvaluation e now s).1] ∧
    (createPpmEvaluation e now s).1.ppmValue =
      jsRound ((e.rejectedQuantity : ℚ) / (e.totalReceivedQuantity : ℚ) * 1000000) ∧
    getPpmRange p = "Needs Improvement" ∧
    (createPpmEvaluation
      { supplierId := 0, materialDocument := "MD-1", rejectedQuantity := 20,
        totalReceivedQuantity := 25 } now s).1.ppmValue = 800000 ∧
    getPpmRange 800000 = "Needs Improvement" := by
  refine ⟨rfl, rfl, ?_, ?_, ?_⟩
  · have h0 : ¬ (p = 0) := by omega
    have h1 : ¬ (p < 1000) := by omega
    have h2 : ¬ (p < 10000) := by omega
    unfold getPpmRange
    rw [if_neg h0, if_neg h1, if_neg h2]
  · show jsRound (((20 : ℤ) : ℚ) / ((25 : ℤ) : ℚ) * 1000000) = 800000
    rw [show ((20 : ℤ) : ℚ) / ((25 : ℤ) : ℚ) * 1000000 = ((800000 : ℤ) : ℚ) by norm_num]
    exact jsRound_intCast 800000
  · unfold getPpmRange
    norm_num

theorem ppm_value_and_classification_witness :
    (createPpmEvaluation
      { supplierId := 0, materialDocument := "MD-1", rejectedQuantity := 20,
        totalReceivedQuantity := 25 } 0 initialStorage).2.ppmEvaluations =
      initialStorage.ppmEvaluations ++
        [(createPpmEvaluation
          { supplierId := 0, materialDocument := "MD-1", rejectedQuantity := 20,
            totalReceivedQuantity := 25 } 0 initialStorage).1] ∧
    (createPpmEvaluation
      { supplierId := 0, materialDocument := "MD-1", rejectedQuantity := 20,
        totalReceivedQuantity := 25 } 0 initialStorage).1.ppmValue =
      jsRound (((20 : ℤ) : ℚ) / ((25 : ℤ) : ℚ) * 1000000) ∧
    getPpmRange 10000 = "Needs Improvement" ∧
    (createPpmEvaluation
      { supplierId := 0, materialDocument := "MD-1", rejectedQuantity := 20,
        totalReceivedQuantity := 25 } 0 initialStorage).1.ppmValue = 800000 ∧
    getPpmRange 800000 = "Needs Improvement" :=
  ppm_value_and_classification
    { supplierId := 0, materialDocument := "MD-1", rejectedQuantity := 20,
      totalReceivedQuantity := 25 } 0 initialStorage 10000
    (by norm_num) (by norm_num) le_rfl

/-- C3 (code bug): a price-evaluation create request with `poPrice = 0` is
not rejected — the server route validates with
`insertPriceEvaluationSchema`, which carries no positivity refinement (the
`.min(0.01)` checks live only in the client form schema), so the request
reaches `createPriceEvaluation`, which divides by zero
(`variancePercentage = (1 - 0)/0 * 100`, `Infinity` in JavaScript) and
stores the record.  This theorem evaluates the embedded server check and
the storage layer at that failing input: validation accepts it and an
evaluation with `poPrice = 0` is persisted. -/
theorem zero_poPrice_passes_server_validation :
    insertPriceEvaluationSchemaCheck
      { supplierId := 0, poNumber := "4500002", itemNumber := "10",
        poPrice := 0, invoicePrice := 1, quantity := 1 } = true ∧
    ((createPriceEvaluation
      { supplierId := 0, poNumber := "4500002", itemNumber := "10",
        poPrice := 0, invoicePrice := 1, quantity := 1 } 0
      initialStorage).2.priceEvaluations.map (fun ev => ev.poPrice)) = [0] :=
  ⟨rfl, rfl⟩

/-- C4 (refuted): the "exactly one active configuration per category"
invariant is not preserved by configuration creates.  The initial state
holds exactly one active price configuration, but
`createPriceConfiguration` (which defaults `isActive` to `true` and never
deactivates existing configurations) produces a reachable state with two
active price configurations. -/
theorem createPriceConfiguration_breaks_unique_active :
    (initialStorage.priceConfigurations.filter (fun c => c.isActive)).length = 1 ∧
    (((createPriceConfiguration
        { name := none, description := none, excellentThreshold := none,
          goodThreshold := none, acceptableThreshold := none, penaltyRate := none,
          minimumScore := none, isActive := none } 1
        initialStorage).2.priceConfigurations.filter (fun c => c.isActive)).length = 2) ∧
    ¬ (((createPriceConfiguration
        { name := none, description := none, excellentThreshold := none,
          goodThreshold := none, acceptableThreshold := none, penaltyRate := none,
          minimumScore := none, isActive := none } 1
        initialStorage).2.priceConfigurations.filter (fun c => c.isActive)).length = 1) := by
  exact ⟨rfl, rfl, by decide⟩

/-- C4 (amended): the initial storage state holds exactly one active price
configuration, and whenever the store holds exactly one configuration
flagged active, `getActivePriceConfiguration` returns it (in general it
returns the first active configuration in insertion order); create and
update operations, however, do not enforce this uniqueness. -/
theorem unique_active_price_configuration_lookup (s : MemStorage)
    (c : PriceConfiguration)
    (h : s.priceConfigurations.filter (fun x => x.isActive) = [c]) :
    getActivePriceConfiguration s = some c ∧
    (initialStorage.priceConfigurations.filter (fun x => x.isActive)).length = 1 := by
  constructor
  · unfold getActivePriceConfiguration
    rw [find?_eq_head?_filter, h]
    rfl
  · rfl

theorem unique_active_price_configuration_lookup_witness :
    getActivePriceConfiguration initialStorage = some
      { id := 6, name := "SAP S4HANA Default",
        description := some "Standard SAP price variance scoring configuration",
        excellentThreshold := -5, goodThreshold := -2, acceptableThreshold := 2,
        penaltyRate := 10, minimumScore := 0, isActive := true,
        createdAt := 0, updatedAt := 0 } ∧
    (initialStorage.priceConfigurations.filter (fun x => x.isActive)).length = 1 :=
  unique_active_price_configuration_lookup initialStorage
    { id := 6, name := "SAP S4HANA Default",
      description := some "Standard SAP price variance scoring configuration",
      excellentThreshold := -5, goodThreshold := -2, acceptableThreshold := 2,
      penaltyRate := 10, minimumScore := 0, isActive := true,
      createdAt := 0, updatedAt := 0 } rfl

/-- C8 (refuted): under the default configuration the parametric price
preview at variance 3 returns `Math.round(Math.max(70 - |3-2|*10, 0)) = 60`,
not 70 as the claim states. -/
theorem parametric_price_at_three_not_70 :
    priceScorePreview defaultPriceConfigForm 3 = 60 ∧
    ¬ (priceScorePreview defaultPriceConfigForm 3 = 70) := by
  have h : priceScorePreview defaultPriceConfigForm 3 = 60 := by
    simp only [priceScorePreview, defaultPriceConfigForm, Option.getD]
    norm_num
    rw [show ((60 : ℚ)) = ((60 : ℤ) : ℚ) by norm_num, jsRound_intCast]
  exact ⟨h, by rw [h]; norm_num⟩

/-- C8 (amended): the fixed-table price policy and the parametric price
policy under the default configuration are not extensionally equal: at
variance percentage 3 the fixed table returns 40 while the parametric
preview returns 60. -/
theorem fixed_vs_parametric_price_divergence :
    calculatePriceScore 3 = 40 ∧
    priceScorePreview defaultPriceConfigForm 3 = 60 ∧
    calculatePriceScore 3 ≠ priceScorePreview defaultPriceConfigForm 3 := by
  have h40 : calculatePriceScore 3 = 40 := by
    unfold calculatePriceScore
    norm_num
  have h60 : priceScorePreview defaultPriceConfigForm 3 = 60 := by
    simp only [priceScorePreview, defaultPriceConfigForm, Option.getD]
    norm_num
    rw [show ((60 : ℚ)) = ((60 : ℤ) : ℚ) by norm_num, jsRound_intCast]
  refine ⟨h40, h60, ?_⟩
  rw [h40, h60]
  norm_num

/-- C6 (refuted): the quality configuration form validation only requires
`inspectionOkBonus ≥ 0`, so a configuration it accepts (the default with
bonus 1) yields preview score `100 - 0·10 + 1 = 101 ∉ [0,100]` at
`(0 notifications, OK)`. -/
theorem quality_preview_can_exceed_100 :
    qualityConfigurationFormValid bonusQualityConfigForm ∧
    qualityScorePreview bonusQualityConfigForm 0 InspectionResult.OK = 101 ∧
    ¬ (qualityScorePreview bonusQualityConfigForm 0 InspectionResult.OK ≤ 100) := by
  have h : qualityScorePreview bonusQualityConfigForm 0 InspectionResult.OK = 101 := by
    simp only [qualityScorePreview, bonusQualityConfigForm, Option.getD]
    norm_num
    rw [show ((101 : ℚ)) = ((101 : ℤ) : ℚ) by norm_num, jsRound_intCast]
    norm_num
  exact ⟨by decide, h, by rw [h]; norm_num⟩

theorem jsRound_max_bounds {x : ℚ} {m : ℤ} (hub : x ≤ 100) (hm0 : 0 ≤ m)
    (hm100 : m ≤ 100) :
    0 ≤ ((jsRound (max x ((m : ℤ) : ℚ)) : ℤ) : ℚ) ∧
    ((jsRound (max x ((m : ℤ) : ℚ)) : ℤ) : ℚ) ≤ 100 := by
  have h0 : ((0 : ℤ) : ℚ) ≤ max x ((m : ℤ) : ℚ) :=
    le_trans (by exact_mod_cast hm0) (le_max_right _ _)
  have h100 : max x ((m : ℤ) : ℚ) ≤ ((100 : ℤ) : ℚ) :=
    max_le (by push_cast; linarith) (by exact_mod_cast hm100)
  exact ⟨by exact_mod_cast le_jsRound h0, by exact_mod_cast jsRound_le h100⟩

theorem max_jsRound_bounds {x : ℚ} {m : ℤ} (hub : x ≤ ((100 : ℤ) : ℚ)) (hm0 : 0 ≤ m)
    (hm100 : m ≤ 100) :
    0 ≤ max (((jsRound x : ℤ)) : ℚ) ((m : ℤ) : ℚ) ∧
    max (((jsRound x : ℤ)) : ℚ) ((m : ℤ) : ℚ) ≤ 100 := by
  constructor
  · exact le_trans (by exact_mod_cast hm0) (le_max_right _ _)
  · exact max_le (by exact_mod_cast jsRound_le hub) (by exact_mod_cast hm100)

theorem priceScorePreview_bounds (c : InsertPriceConfiguration) (v : ℚ)
    (h : priceConfigurationFormValid c) :
    0 ≤ priceScorePreview c v ∧ priceScorePreview c v ≤ 100 := by
  obtain ⟨he, hr, hm0, hm100⟩ := h
  unfold priceScorePreview
  split_ifs
  · norm_num
  · norm_num
  · norm_num
  · have hpen : 0 ≤ |v - c.acceptableThreshold.getD 2| * c.penaltyRate.getD 10 :=
      mul_nonneg (abs_nonneg _) hr
    exact jsRound_max_bounds (by linarith) hm0 hm100

theorem quantityScorePreview_bounds (c : InsertQuantityConfiguration) (v : ℚ)
    (h : quantityConfigurationFormValid c) :
    0 ≤ quantityScorePreview c v ∧ quantityScorePreview c v ≤ 100 := by
  obtain ⟨hp0, hp100, hsr, hor, hm0, hm100⟩ := h
  simp only [quantityScorePreview]
  split_ifs with h1 h2
  · constructor
    · exact_mod_cast hp0
    · exact_mod_cast hp100
  · have hpen : 0 ≤ |v| * c.shortfallPenaltyRate.getD 5 :=
      mul_nonneg (abs_nonneg _) hsr
    refine max_jsRound_bounds ?_ hm0 hm100
    have hc : ((c.perfectDeliveryScore.getD 100 : ℤ) : ℚ) ≤ ((100 : ℤ) : ℚ) := by
      exact_mod_cast hp100
    linarith
  · have hv : 0 ≤ v := not_lt.mp h2
    have hpen : 0 ≤ v * c.overdeliveryPenaltyRate.getD 2 := mul_nonneg hv hor
    refine max_jsRound_bounds ?_ hm0 hm100
    have hc : ((c.perfectDeliveryScore.getD 100 : ℤ) : ℚ) ≤ ((100 : ℤ) : ℚ) := by
      exact_mod_cast hp100
    linarith

theorem deliveryScorePreview_bounds (c : InsertDeliveryConfiguration) (d : ℤ)
    (h : deliveryConfigurationFormValid c) :
    0 ≤ deliveryScorePreview c d ∧ deliveryScorePreview c d ≤ 100 := by
  obtain ⟨ho0, ho100, hpd, hmax, hm0, hm100⟩ := h
  unfold deliveryScorePreview
  split_ifs with h1
  · constructor
    · exact_mod_cast ho0
    · exact_mod_cast ho100
  · have hd : (0 : ℚ) < (d : ℤ) := by exact_mod_cast not_le.mp h1
    have hpen : 0 ≤ ((d : ℤ) : ℚ) * ((c.penaltyPerDay.getD 5 : ℤ) : ℚ) :=
      mul_nonneg (le_of_lt hd) (by exact_mod_cast hpd)
    have hc : ((c.onTimeScore.getD 100 : ℤ) : ℚ) ≤ 100 := by exact_mod_cast ho100
    exact jsRound_max_bounds (by linarith) hm0 hm100

theorem qualityScorePreview_bounds (c : InsertQualityConfiguration) (n : ℤ)
    (insp : InspectionResult) (h : qualityConfigurationFormValid c) (hn : 0 ≤ n) :
    0 ≤ qualityScorePreview c n insp ∧
    qualityScorePreview c n insp ≤
      max (((c.baseScore.getD 100 : ℤ) : ℚ) + ((c.inspectionOkBonus.getD 0 : ℤ) : ℚ))
        ((c.minimumScore.getD 0 : ℚ)) := by
  obtain ⟨hb0, hb100, hpen, hbonus, hnot, hm0, hm100⟩ := h
  have hnp : 0 ≤ (n : ℚ) * ((c.notificationPenalty.getD 10 : ℤ) : ℚ) :=
    mul_nonneg (by exact_mod_cast hn) (by exact_mod_cast hpen)
  simp only [qualityScorePreview]
  cases insp with
  | OK =>
      constructor
      · exact le_trans (by exact_mod_cast hm0) (le_max_right _ _)
      · refine max_le_max ?_ le_rfl
        have hub : ((c.baseScore.getD 100 : ℤ) : ℚ) -
            (n : ℚ) * ((c.notificationPenalty.getD 10 : ℤ) : ℚ) +
            ((c.inspectionOkBonus.getD 0 : ℤ) : ℚ) ≤
            ((c.baseScore.getD 100 + c.inspectionOkBonus.getD 0 : ℤ) : ℚ) := by
          push_cast
          linarith
        have := jsRound_le hub
        exact_mod_cast this
  | NOT_OK =>
      constructor
      · exact le_trans (by exact_mod_cast hm0) (le_max_right _ _)
      · refine max_le_max ?_ le_rfl
        have hnotq : (0 : ℚ) ≤ ((c.inspectionNotOkPenalty.getD 20 : ℤ) : ℚ) := by
          exact_mod_cast hnot
        have hbq : (0 : ℚ) ≤ ((c.inspectionOkBonus.getD 0 : ℤ) : ℚ) := by
          exact_mod_cast hbonus
        have hub : ((c.baseScore.getD 100 : ℤ) : ℚ) -
            (n : ℚ) * ((c.notificationPenalty.getD 10 : ℤ) : ℚ) -
            ((c.inspectionNotOkPenalty.getD 20 : ℤ) : ℚ) ≤
            ((c.baseScore.getD 100 + c.inspectionOkBonus.getD 0 : ℤ) : ℚ) := by
          push_cast
          push_cast at hbq hnotq
          linarith
        have := jsRound_le hub
        exact_mod_cast this

/-- C6 (amended): every fixed-table score — price, quantity, delivery, and
the stored quality overall score — lies in `[0,100]`, and so does every
parametric preview score for price, quantity and delivery under a
configuration accepted by the respective form validation; the parametric
quality preview is bounded below by 0 but only bounded above by
`max (baseScore + inspectionOkBonus) minimumScore`, which exceeds 100
whenever the (unboundedly) non-negative `inspectionOkBonus` is positive. -/
theorem scores_bounded (pc : InsertPriceConfiguration)
    (qc : InsertQuantityConfiguration) (dc : InsertDeliveryConfiguration)
    (qlc : InsertQualityConfiguration) (eqf : InsertQualityEvaluation)
    (now : ℕ) (s : MemStorage) (v w : ℚ) (d n : ℤ) (insp : InspectionResult)
    (hpc : priceConfigurationFormValid pc)
    (hqc : quantityConfigurationFormValid qc)
    (hdc : deliveryConfigurationFormValid dc)
    (hqlc : qualityConfigurationFormValid qlc)
    (hn : 0 ≤ n) :
    (0 ≤ calculatePriceScore v ∧ calculatePriceScore v ≤ 100) ∧
    (0 ≤ calculateQuantityScore v ∧ calculateQuantityScore v ≤ 100) ∧
    (0 ≤ calculateDeliveryScore d ∧ calculateDeliveryScore d ≤ 100) ∧
    (0 ≤ (createQualityEvaluation eqf now s).1.overallScore ∧
      (createQualityEvaluation eqf now s).1.overallScore ≤ 100) ∧
    (0 ≤ priceScorePreview pc v ∧ priceScorePreview pc v ≤ 100) ∧
    (0 ≤ quantityScorePreview qc w ∧ quantityScorePreview qc w ≤ 100) ∧
    (0 ≤ deliveryScorePreview dc d ∧ deliveryScorePreview dc d ≤ 100) ∧
    (0 ≤ qualityScorePreview qlc n insp ∧
      qualityScorePreview qlc n insp ≤
        max (((qlc.baseScore.getD 100 : ℤ) : ℚ) + ((qlc.inspectionOkBonus.getD 0 : ℤ) : ℚ))
          ((qlc.minimumScore.getD 0 : ℚ))) :=
  ⟨calculatePriceScore_bounds v, calculateQuantityScore_bounds v,
   calculateDeliveryScore_bounds d, quality_fixed_overall_bounds eqf now s,
   priceScorePreview_bounds pc v hpc, quantityScorePreview_bounds qc w hqc,
   deliveryScorePreview_bounds dc d hdc, qualityScorePreview_bounds qlc n insp hqlc hn⟩

theorem scores_bounded_witness :
    (0 ≤ calculatePriceScore 3 ∧ calculatePriceScore 3 ≤ 100) ∧
    (0 ≤ calculateQuantityScore 3 ∧ calculateQuantityScore 3 ≤ 100) ∧
    (0 ≤ calculateDeliveryScore 5 ∧ calculateDeliveryScore 5 ≤ 100) ∧
    (0 ≤ (createQualityEvaluation
        { supplierId := 0, poNumber := "4500004", itemNumber := "10",
          qualityNotifications := 2, inspectionResult := InspectionResult.OK } 0
        initialStorage).1.overallScore ∧
      (createQualityEvaluation
        { supplierId := 0, poNumber := "4500004", itemNumber := "10",
          qualityNotifications := 2, inspectionResult := InspectionResult.OK } 0
        initialStorage).1.overallScore ≤ 100) ∧
    (0 ≤ priceScorePreview defaultPriceConfigForm 3 ∧
      priceScorePreview defaultPriceConfigForm 3 ≤ 100) ∧
    (0 ≤ quantityScorePreview defaultQuantityConfigForm (-3) ∧
      quantityScorePreview defaultQuantityConfigForm (-3) ≤ 100) ∧
    (0 ≤ deliveryScorePreview defaultDeliveryConfigForm 5 ∧
      deliveryScorePreview defaultDeliveryConfigForm 5 ≤ 100) ∧
    (0 ≤ qualityScorePreview defaultQualityConfigForm 2 InspectionResult.OK ∧
      qualityScorePreview defaultQualityConfigForm 2 InspectionResult.OK ≤
        max (((defaultQualityConfigForm.baseScore.getD 100 : ℤ) : ℚ) +
            ((defaultQualityConfigForm.inspectionOkBonus.getD 0 : ℤ) : ℚ))
          ((defaultQualityConfigForm.minimumScore.getD 0 : ℚ))) :=
  scores_bounded defaultPriceConfigForm defaultQuantityConfigForm
    defaultDeliveryConfigForm defaultQualityConfigForm
    { supplierId := 0, poNumber := "4500004", itemNumber := "10",
      qualityNotifications := 2, inspectionResult := InspectionResult.OK } 0
    initialStorage 3 (-3) 5 2 InspectionResult.OK
    (by decide) (by decide) (by decide) (by decide) (by decide)

/-- C10: every branch of the four configurable (parametric) preview scoring
functions returns an integer — either an integer-typed configuration field
or a `Math.round`ed value combined with the integer minimum-score floor —
for every configuration and input; by contrast the fixed quality path's
two-term average can end in `.5`: at `(1 notification, NOT_OK)` the stored
overall score is `(80 + 1)/2 = 40.5`, which is no integer. -/
theorem parametric_scores_integral (pc : InsertPriceConfiguration)
    (qc : InsertQuantityConfiguration) (dc : InsertDeliveryConfiguration)
    (qlc : InsertQualityConfiguration) (v w : ℚ) (d n : ℤ)
    (insp : InspectionResult) :
    (∃ k : ℤ, priceScorePreview pc v = (k : ℚ)) ∧
    (∃ k : ℤ, quantityScorePreview qc w = (k : ℚ)) ∧
    (∃ k : ℤ, deliveryScorePreview dc d = (k : ℚ)) ∧
    (∃ k : ℤ, qualityScorePreview qlc n insp = (k : ℚ)) ∧
    (createQualityEvaluation
      { supplierId := 0, poNumber := "4500005", itemNumber := "10",
        qualityNotifications := 1, inspectionResult := InspectionResult.NOT_OK } 0
      initialStorage).1.overallScore = 81 / 2 ∧
    (∀ k : ℤ, (81 : ℚ) / 2 ≠ (k : ℚ)) := by
  refine ⟨?_, ?_, ?_, ?_, ?_, ?_⟩
  · unfold priceScorePreview
    split_ifs
    · exact ⟨100, by norm_num⟩
    · exact ⟨80, by norm_num⟩
    · exact ⟨70, by norm_num⟩
    · exact ⟨jsRound (max (70 - |v - pc.acceptableThreshold.getD 2| *
        pc.penaltyRate.getD 10) ((pc.minimumScore.getD 0 : ℤ) : ℚ)), rfl⟩
  · simp only [quantityScorePreview]
    split_ifs with h1 h2
    · exact ⟨qc.perfectDeliveryScore.getD 100, rfl⟩
    · refine ⟨max (jsRound (((qc.perfectDeliveryScore.getD 100 : ℤ) : ℚ) -
        |w| * qc.shortfallPenaltyRate.getD 5)) (qc.minimumScore.getD 0), ?_⟩
      push_cast
      rfl
    · refine ⟨max (jsRound (((qc.perfectDeliveryScore.getD 100 : ℤ) : ℚ) -
        w * qc.overdeliveryPenaltyRate.getD 2)) (qc.minimumScore.getD 0), ?_⟩
      push_cast
      rfl
  · unfold deliveryScorePreview
    split_ifs
    · exact ⟨dc.onTimeScore.getD 100, rfl⟩
    · exact ⟨jsRound (max (((dc.onTimeScore.getD 100 : ℤ) : ℚ) -
        ((d : ℤ) : ℚ) * ((dc.penaltyPerDay.getD 5 : ℤ) : ℚ))
        ((dc.minimumScore.getD 0 : ℤ) : ℚ)), rfl⟩
  · simp only [qualityScorePreview]
    cases insp with
    | OK =>
        refine ⟨max (jsRound (((qlc.baseScore.getD 100 : ℤ) : ℚ) -
          (n : ℚ) * ((qlc.notificationPenalty.getD 10 : ℤ) : ℚ) +
          ((qlc.inspectionOkBonus.getD 0 : ℤ) : ℚ))) (qlc.minimumScore.getD 0), ?_⟩
        push_cast
        rfl
    | NOT_OK =>
        refine ⟨max (jsRound (((qlc.baseScore.getD 100 : ℤ) : ℚ) -
          (n : ℚ) * ((qlc.notificationPenalty.getD 10 : ℤ) : ℚ) -
          ((qlc.inspectionNotOkPenalty.getD 20 : ℤ) : ℚ))) (qlc.minimumScore.getD 0), ?_⟩
        push_cast
        rfl
  · show (calculateQualityNotificationScore 1 +
      (if InspectionResult.NOT_OK = InspectionResult.OK then (100 : ℚ) else 1)) / 2 = 81 / 2
    rw [if_neg (show InspectionResult.NOT_OK ≠ InspectionResult.OK by decide)]
    norm_num [calculateQualityNotificationScore]
  · intro k hk
    have h2 : (81 : ℚ) = 2 * (k : ℚ) := by linarith
    have h3 : (81 : ℤ) = 2 * k := by exact_mod_cast h2
    omega

end Scorecard
